import Mathlib

/-!
Shallow embedding of the armoriq-hackathon governance core.

This file embeds, in Lean 4, the authorization core of the repository:

* `backend/policy/engine.py` — the policy engine (`allow`, `consume_quota`
  and the module-level `_RESTART_HISTORY` store);
* `backend/mcp/main.py` — the intent-token validator
  (`verify_armoriq_token` and the module-level `USED_TOKENS` set);
* `backend/armoriq/client.py` — the mock token authority
  (`capture_plan` and `get_intent_token` in mock mode), together with a
  model of the top-level namespace of the module, used to settle name
  resolution of the mock branch;
* `backend/mcp/registry.py` — the tool registry (`register`, `get_tool`).

Python dictionaries are modelled as association lists, Python values as a
small inductive `Value` with Python truthiness, mutable module-level state
is passed explicitly, and `datetime` timestamps are natural-number seconds.
-/

namespace ArmorIQ

/-- A Python parameter value, as it occurs in the `params` dictionaries the
repository passes around: strings, integers, booleans, or `None`. -/
inductive Value where
  | str (s : String)
  | int (n : Int)
  | bool (b : Bool)
  | vnone
deriving DecidableEq, Repr

/-- Python truthiness of a `Value` (`if agent_id:` etc.). -/
def Value.truthy : Value → Bool
  | .str s => s ≠ ""
  | .int n => n ≠ 0
  | .bool b => b
  | .vnone => false

/-- Python `str()` of a `Value`, as used by f-string interpolation. -/
def Value.pyStr : Value → String
  | .str s => s
  | .int n => toString n
  | .bool b => if b then "True" else "False"
  | .vnone => "None"

/-- A Python `dict[str, Any]` parameter map, as an association list. -/
abbrev Params := List (String × Value)

/-- `d.get(k)` on a parameter dict: the Python `None` returned for a
missing key is conflated with an explicit `None` value, exactly as the
truthiness tests of the source and `!=` comparisons treat it. -/
def pyGet (m : Params) (k : String) : Value :=
  match m.find? (fun kv => kv.1 == k) with
  | some kv => kv.2
  | none => .vnone

/-- Truthiness of an optional string (Python `if username:` where
`username` is `None` or a `str`). -/
def optStrTruthy : Option String → Bool
  | some s => s ≠ ""
  | none => false

/-- The `actor` argument of `engine.allow` / `engine.consume_quota`:
either a bare username string or a user dict, from which the source reads
`actor.get("username")` (possibly missing) and `actor.get("roles", [])`. -/
inductive Actor where
  | name (s : String)
  | user (username : Option String) (roles : List String)
deriving DecidableEq, Repr

/-- Step 1 of `allow`: the normalized username. -/
def Actor.username : Actor → Option String
  | .name s => some s
  | .user u _ => u

/-- Step 1 of `allow`: the normalized role list. -/
def Actor.roles : Actor → List String
  | .name _ => []
  | .user _ rs => rs

/-- The `_RESTART_HISTORY` store of `engine.py`: per
`(username, service_id)` key, the list of recorded restart timestamps
(seconds). The username may be `None` (Python permits `None` dict keys). -/
def History : Type := (Option String × Value) → List Nat

/-- Writing one key of the history store (`_RESTART_HISTORY[key] = ...`). -/
def updateHist (h : History) (k : Option String × Value) (v : List Nat) : History :=
  fun k' => if k' = k then v else h k'

/-- Python `repr` of a list of strings, as interpolated by the f-string of
the default-deny reason. -/
def pyListRepr (rs : List String) : String :=
  "[" ++ String.intercalate ", " (rs.map (fun r => "\x27" ++ r ++ "\x27")) ++ "]"

/-- The identity-mismatch reason f-string of `engine.allow`. -/
def identityMismatchMsg (agentId : Value) (username : String) : String :=
  "Identity mismatch: Requesting for \x27" ++ agentId.pyStr ++
    "\x27 but authenticated as \x27" ++ username ++ "\x27"

/-- The junior rate-limit reason f-string of `engine.allow`. -/
def juniorLimitMsg (sid : Value) : String :=
  "Junior Limit: Max 1 restart per hour for service \x27" ++ sid.pyStr ++ "\x27"

/-- The default-deny reason f-string of `engine.allow`. -/
def deniedMsg (action : String) (roles : List String) : String :=
  "Action \x27" ++ action ++ "\x27 denied for role(s) " ++ pyListRepr roles

/-- `engine.allow(actor, action, params)`. The wall clock
(`datetime.now()`) is the explicit `now`, and the `_RESTART_HISTORY` store
is threaded through: the result is the `(permitted, reason)` pair together
with the store after the call (the junior branch writes the pruned list
back into the store before deciding). -/
def allow (actor : Actor) (action : String) (params : Params) (now : Nat)
    (hist : History) : (Bool × String) × History :=
  let username := actor.username
  let roles := actor.roles
  let agent_id := pyGet params "agent_id"
  if agent_id.truthy ∧ optStrTruthy username ∧ agent_id ≠ Value.str (username.getD "") then
    ((false, identityMismatchMsg agent_id (username.getD "")), hist)
  else if "admin" ∈ roles ∨ "superadmin" ∈ roles then
    ((true, "Admin access granted"), hist)
  else if action = "infra.restart" ∧ ¬ (pyGet params "service_id").truthy then
    ((false, "Missing service_id parameter"), hist)
  else if action = "infra.restart" ∧ "junior" ∈ roles then
    let sid := pyGet params "service_id"
    let key := (username, sid)
    let valid := (hist key).filter (fun t => now - t < 3600)
    let hist' := updateHist hist key valid
    if 1 ≤ valid.length then
      ((false, juniorLimitMsg sid), hist')
    else
      ((true, "Junior access granted"), hist')
  else if action = "alert.create" then
    ((true, "Alert creation allowed"), hist)
  else if action.startsWith "data." then
    ((true, "Data operation allowed"), hist)
  else if action.startsWith "user." then
    if "junior" ∈ roles then
      ((true, "Allowed for Junior"), hist)
    else
      ((false, deniedMsg action roles), hist)
  else
    ((false, deniedMsg action roles), hist)

/-- `engine.consume_quota(actor, action, params)`: returns the
`_RESTART_HISTORY` store after the call (the function itself returns
`None`; its only effect is on the store). -/
def consume_quota (actor : Actor) (action : String) (params : Params) (now : Nat)
    (hist : History) : History :=
  let username := actor.username
  let roles := actor.roles
  if action = "infra.restart" then
    let sid := pyGet params "service_id"
    if ¬ sid.truthy then hist
    else if "junior" ∈ roles then
      let key := (username, sid)
      let valid := (hist key).filter (fun t => now - t < 3600)
      updateHist hist key (valid ++ [now])
    else hist
  else hist

/-! ## The MCP token validator (`backend/mcp/main.py`) -/

/-- A Python value returned by `verify_armoriq_token`: the source returns a
bare boolean on every path; the pair constructor exists so that the claim
that the function returns `(ok, reason)` pairs can be stated and compared
against what the source actually returns. -/
inductive PyRet where
  | vbool (b : Bool)
  | vpair (b : Bool) (s : String)
deriving DecidableEq, Repr

/-- One entry of the `actions` list of the token payload: a bound
`{"action": ..., "params": ...}` pair. -/
structure BoundAction where
  action : String
  params : Params
deriving DecidableEq, Repr

/-- The decoded JWT payload of an intent token. -/
structure TokenPayload where
  sub : Option String
  jti : Option String
  exp : Nat
  actions : List BoundAction
deriving DecidableEq, Repr

/-- A serialized signed token: the payload plus the key it was signed
with. `jwt.decode(tok, ARMORIQ_SECRET, ...)` succeeds exactly when the
signing key equals the secret of the verifier and the `exp` claim is not in the
past; otherwise it raises a `JWTError`. -/
structure SignedToken where
  payload : TokenPayload
  key : String
deriving DecidableEq, Repr

/-- The shared secret: default of `os.getenv("ARMORIQ_SECRET", ...)` in
both `backend/mcp/main.py` and `backend/armoriq/client.py`. -/
def ARMORIQ_SECRET : String := "demo-secret-key-12345"

/-- The inner parameter check of `verify_armoriq_token`: every key of the
params of the bound entry must have an identical value in the requested
parameters (`parameters.get(k) != v` breaks the loop). -/
def paramsMatch (allowedParams : Params) (parameters : Params) : Bool :=
  allowedParams.all (fun kv => pyGet parameters kv.1 == kv.2)

/-- The action-binding scan of `verify_armoriq_token` (the `for allowed in
allowed_actions` loop with early break). -/
def isAuthorized (actions : List BoundAction) (toolName : String)
    (parameters : Params) : Bool :=
  actions.any (fun a => a.action == toolName && paramsMatch a.params parameters)

/-- The user-impersonation test of `verify_armoriq_token`:
`user_email and payload.get("sub") != user_email` (a `None` or empty
`user_email` is falsy and skips the check). -/
def emailMismatch (userEmail : Option String) (sub : Option String) : Bool :=
  match userEmail with
  | some e => e ≠ "" && sub ≠ some e
  | none => false

/-- Python falsiness of the `jti` claim (`if not jti`): a missing claim or
an empty string. -/
def jtiFalsy : Option String → Bool
  | none => true
  | some s => s == ""

/-- `verify_armoriq_token(intent_token, tool_name, parameters, user_email)`
of `backend/mcp/main.py`. The wall clock is the explicit `now` and the
module-level `USED_TOKENS` set is threaded as a list; the result is the
returned Python value (always a bare boolean in the source) together with
the used-token set after the call. -/
def verify_armoriq_token (tok : SignedToken) (toolName : String)
    (parameters : Params) (userEmail : Option String) (now : Nat)
    (used : List String) : PyRet × List String :=
  if tok.key ≠ ARMORIQ_SECRET ∨ tok.payload.exp < now then
    (.vbool false, used)
  else if jtiFalsy tok.payload.jti ∨ tok.payload.jti.getD "" ∈ used then
    (.vbool false, used)
  else if emailMismatch userEmail tok.payload.sub then
    (.vbool false, tok.payload.jti.getD "" :: used)
  else if isAuthorized tok.payload.actions toolName parameters then
    (.vbool true, tok.payload.jti.getD "" :: used)
  else
    (.vbool false, tok.payload.jti.getD "" :: used)

/-- One presentation of a token to `verify_armoriq_token`. -/
structure VCall where
  token : SignedToken
  tool : String
  params : Params
  email : Option String
  now : Nat
deriving Repr

/-- Running a sequence of presentations against the evolving
`USED_TOKENS` set, counting how many of the calls that present a token
whose `jti` is `j` return `True`. -/
def trueCountFor (j : String) : List VCall → List String → Nat
  | [], _ => 0
  | c :: cs, used =>
    (if c.token.payload.jti = some j ∧
        (verify_armoriq_token c.token c.tool c.params c.email c.now used).1
          = PyRet.vbool true
      then 1 else 0)
      + trueCountFor j cs
          (verify_armoriq_token c.token c.tool c.params c.email c.now used).2

/-! ## The mock token authority (`backend/armoriq/client.py`) -/

/-- The value `capture_plan` returns and `get_intent_token` receives:
either a plain string (the mock plan id), a dict containing a `"plan"`
key whose `"steps"` are the given list, or a dict without a `"plan"` key. -/
inductive CapturedPlan where
  | planId (s : String)
  | withSteps (steps : List BoundAction)
  | otherDict
deriving DecidableEq, Repr

/-- `ArmorIQGateway.capture_plan(llm, prompt, plan)` in mock mode: logs and
returns the constant string `"mock-plan-id-123"`, discarding the plan. -/
def capture_plan_mock (_llm : String) (_prompt : String)
    (_plan : List BoundAction) : CapturedPlan :=
  .planId "mock-plan-id-123"

/-- The `allowed_actions` extraction of `get_intent_token`: steps are
copied (action + params) only when the captured plan is a dict with a
`"plan"` key; any other input yields the empty list. -/
def extractAllowedActions : CapturedPlan → List BoundAction
  | .withSteps steps => steps
  | _ => []

/-- The payload `get_intent_token` builds in mock mode: hardcoded subject
`"admin_agent"`, a fresh `jti` nonce, `exp = now + 600` seconds
(`timedelta(minutes=10)`), and the extracted action list. -/
def mintPayload (c : CapturedPlan) (now : Nat) (nonce : String) : TokenPayload :=
  { sub := some "admin_agent"
    jti := some nonce
    exp := now + 600
    actions := extractAllowedActions c }

/-- The signed token `jwt.encode(payload, ARMORIQ_SECRET, "HS256")` would
produce from the mock payload, assuming all names in the branch resolved
(the name-resolution defect is modelled separately below). -/
def mintToken (c : CapturedPlan) (now : Nat) (nonce : String) : SignedToken :=
  { payload := mintPayload c now nonce, key := ARMORIQ_SECRET }

/-- The complete top-level namespace of `backend/armoriq/client.py`: the
names bound by its import statements (`os`, `json`, `sys`, `logging`,
`dotenv`, `requests`, and `Dict`, `Any` from `typing`) and its module-level
assignments and definitions. -/
def clientModuleTopLevel : List String :=
  ["os", "json", "sys", "logging", "dotenv", "requests", "Dict", "Any",
   "logger", "ARMORIQ_SECRET", "ArmorIQGateway", "gateway"]

/-- The Python builtins referenced by the mock branch of
`get_intent_token`. -/
def pyBuiltinNames : List String := ["isinstance", "str"]

/-- The global (non-local) names the mock branch of `get_intent_token`
references, in first-evaluation order: the log call, the `isinstance`
test, then the payload literal (`datetime.utcnow()` for `"iat"`,
`timedelta` for `"exp"`, `uuid.uuid4()` and `str` for `"jti"`) and finally
`jwt.encode(..., ARMORIQ_SECRET, ...)`. -/
def mockBranchGlobalRefs : List String :=
  ["logger", "isinstance", "datetime", "timedelta", "uuid", "str", "jwt",
   "ARMORIQ_SECRET"]

/-- Python name resolution for code in `backend/armoriq/client.py`:
a global reference resolves iff it is bound at module top level or is a
builtin. -/
def resolvesName (n : String) : Bool :=
  n ∈ clientModuleTopLevel ∨ n ∈ pyBuiltinNames

/-- A Python runtime error relevant here. -/
inductive PyError where
  | nameError (n : String)
deriving DecidableEq, Repr

/-- `ArmorIQGateway.get_intent_token(captured_plan)` in mock mode, with
Python name resolution made explicit: evaluation raises `NameError` at the
first referenced global that does not resolve, and only if every reference
resolves does it return the signed token. -/
def get_intent_token_mock (c : CapturedPlan) (now : Nat) (nonce : String) :
    Except PyError SignedToken :=
  match mockBranchGlobalRefs.find? (fun n => ¬ resolvesName n) with
  | some n => .error (.nameError n)
  | none => .ok (mintToken c now nonce)

/-! ## The tool registry (`backend/mcp/registry.py`) -/

/-- A declared tool parameter (`ToolParameter` pydantic model). -/
structure ToolParameter where
  name : String
  type : String
  description : String
  required : Bool := true
deriving DecidableEq, Repr

/-- The stored definition of a registered tool (`ToolDefinition` pydantic model). -/
structure ToolDefinition where
  name : String
  description : String
  parameters : List ToolParameter
deriving DecidableEq, Repr

/-- Python dict assignment `m[k] = v`: replaces the value in place if the
key exists, else appends, preserving insertion order. -/
def dictSet {α : Type} : List (String × α) → String → α → List (String × α)
  | [], k, v => [(k, v)]
  | kv :: rest, k, v =>
    if kv.1 = k then (k, v) :: rest else kv :: dictSet rest k v

/-- Python `m.get(k)`. -/
def dictGet {α : Type} (m : List (String × α)) (k : String) : Option α :=
  (m.find? (fun kv => kv.1 == k)).map (fun kv => kv.2)

/-- The `ToolRegistry` state: the `_tools` dict (name → handler, handlers
abstract over `α`) and the `_definitions` dict. -/
structure ToolRegistry (α : Type) where
  tools : List (String × α)
  defs : List (String × ToolDefinition)
deriving Repr

/-- The empty registry (`ToolRegistry.__init__`). -/
def ToolRegistry.empty {α : Type} : ToolRegistry α := ⟨[], []⟩

/-- `ToolRegistry.register(name, description, parameters)` applied (as a
decorator) to a handler `func`: both dicts are assigned unconditionally —
there is no duplicate check and no error path. -/
def ToolRegistry.register {α : Type} (reg : ToolRegistry α) (name : String)
    (description : String) (parameters : List ToolParameter) (func : α) :
    ToolRegistry α :=
  { tools := dictSet reg.tools name func
    defs := dictSet reg.defs name ⟨name, description, parameters⟩ }

/-- `ToolRegistry.get_tool(name)`. -/
def ToolRegistry.get_tool {α : Type} (reg : ToolRegistry α) (name : String) :
    Option α :=
  dictGet reg.tools name

/-! ## Concrete instances used by witnesses and counterexamples -/

/-- The empty `_RESTART_HISTORY` store. -/
def emptyHistory : History := fun _ => []

/-- A junior-role user dict as `get_current_user` produces it. -/
def juniorBob : Actor := Actor.user (some "bob") ["junior"]

/-- The restart parameters of the governance test shipped with the repository. -/
def authParams : Params := [("service_id", Value.str "auth")]

/-- The single-step plan of the governance test shipped with the repository
(`backend/scripts/test_governance.py`). -/
def demoPlan : List BoundAction := [⟨"infra.restart", authParams⟩]

/-- A well-signed, unexpired token bound to restarting service `auth`. -/
def tokC1 : SignedToken :=
  ⟨⟨some "admin_agent", some "j1", 600, demoPlan⟩, ARMORIQ_SECRET⟩

/-- A well-signed token whose `exp` (100) lies in the past of `now = 200`. -/
def expiredTok : SignedToken :=
  ⟨⟨some "admin_agent", some "je", 100, demoPlan⟩, ARMORIQ_SECRET⟩

/-- A token signed with the wrong secret (`jwt.decode` raises `JWTError`). -/
def badKeyTok : SignedToken :=
  ⟨⟨some "admin_agent", some "j7", 600, []⟩, "wrong-secret"⟩

/-! ## Helper lemmas -/

theorem updateHist_same (h : History) (k : Option String × Value) (v : List Nat) :
    updateHist h k v k = v := by
  simp [updateHist]

theorem updateHist_ne (h : History) (k k' : Option String × Value) (v : List Nat)
    (hk : k' ≠ k) : updateHist h k v k' = h k' := by
  simp [updateHist, hk]

theorem filter_idem (l : List Nat) (p : Nat → Bool) :
    (l.filter p).filter p = l.filter p := by
  induction l with
  | nil => rfl
  | cons a l ih =>
    by_cases h : p a = true
    · simp [List.filter, h, ih]
    · simp only [List.filter, h]
      exact ih

theorem verify_state_mono (tok : SignedToken) (tool : String) (p : Params)
    (em : Option String) (now : Nat) (used : List String) (u : String)
    (hu : u ∈ used) :
    u ∈ (verify_armoriq_token tok tool p em now used).2 := by
  unfold verify_armoriq_token
  split_ifs <;> simp [hu]

theorem verify_replay (tok : SignedToken) (tool : String) (p : Params)
    (em : Option String) (now : Nat) (used : List String) (j : String)
    (hj : tok.payload.jti = some j) (hmem : j ∈ used) :
    verify_armoriq_token tok tool p em now used = (PyRet.vbool false, used) := by
  unfold verify_armoriq_token
  rw [hj]
  split_ifs with h1 h2
  · rfl
  · rfl
  all_goals exact absurd (Or.inr (by simpa using hmem)) h2

theorem verify_true_fresh (tok : SignedToken) (tool : String) (p : Params)
    (em : Option String) (now : Nat) (used : List String) (j : String)
    (hj : tok.payload.jti = some j)
    (h : (verify_armoriq_token tok tool p em now used).1 = PyRet.vbool true) :
    j ∉ used ∧
      (verify_armoriq_token tok tool p em now used).2 = j :: used := by
  unfold verify_armoriq_token at h ⊢
  rw [hj] at h ⊢
  split_ifs at h ⊢ with h1 h2 h3 h4
  all_goals simp_all

theorem trueCountFor_zero (j : String) (calls : List VCall) :
    ∀ used, j ∈ used → trueCountFor j calls used = 0 := by
  induction calls with
  | nil => intro used _; rfl
  | cons c cs ih =>
    intro used hmem
    unfold trueCountFor
    rw [if_neg, ih _ (verify_state_mono c.token c.tool c.params c.email c.now used j hmem)]
    rintro ⟨hj, htrue⟩
    exact (verify_true_fresh c.token c.tool c.params c.email c.now used j hj htrue).1 hmem

theorem allow_junior (uo : Option String) (roles : List String) (params : Params)
    (now : Nat) (hist : History) (sid : Value)
    (ha : (pyGet params "agent_id").truthy = false)
    (hadmin : "admin" ∉ roles) (hsuper : "superadmin" ∉ roles)
    (hj : "junior" ∈ roles)
    (hp1 : pyGet params "service_id" = sid) (hsid : sid.truthy = true) :
    allow (Actor.user uo roles) "infra.restart" params now hist =
      (if 1 ≤ ((hist (uo, sid)).filter (fun t => now - t < 3600)).length
        then (false, juniorLimitMsg sid)
        else (true, "Junior access granted"),
       updateHist hist (uo, sid)
         ((hist (uo, sid)).filter (fun t => now - t < 3600))) := by
  simp only [allow, Actor.username, Actor.roles, hp1]
  rw [if_neg (by rintro ⟨h1, -, -⟩; rw [ha] at h1; exact Bool.false_ne_true h1)]
  rw [if_neg (by rintro (h | h); exacts [hadmin h, hsuper h])]
  rw [if_neg (by rintro ⟨-, h⟩; exact h hsid)]
  rw [if_pos ⟨trivial, hj⟩]
  split_ifs <;> rfl

theorem consume_junior (uo : Option String) (roles : List String) (params : Params)
    (now : Nat) (hist : History) (sid : Value)
    (hj : "junior" ∈ roles)
    (hp1 : pyGet params "service_id" = sid) (hsid : sid.truthy = true) :
    consume_quota (Actor.user uo roles) "infra.restart" params now hist =
      updateHist hist (uo, sid)
        (((hist (uo, sid)).filter (fun t => now - t < 3600)) ++ [now]) := by
  simp only [consume_quota, Actor.username, Actor.roles, hp1]
  simp [hsid, hj]

theorem allow_state (actor : Actor) (action : String) (params : Params)
    (now : Nat) (hist : History) :
    (allow actor action params now hist).2 = hist ∨
    (allow actor action params now hist).2
      = updateHist hist (actor.username, pyGet params "service_id")
          ((hist (actor.username, pyGet params "service_id")).filter
            (fun t => now - t < 3600)) := by
  simp only [allow]
  split_ifs <;> first | exact Or.inl rfl | exact Or.inr rfl

theorem allow_decision_congr (actor : Actor) (action : String) (params : Params)
    (now : Nat) (h1 h2 : History)
    (hkey : (h1 (actor.username, pyGet params "service_id")).filter
          (fun t => now - t < 3600)
        = (h2 (actor.username, pyGet params "service_id")).filter
          (fun t => now - t < 3600)) :
    (allow actor action params now h1).1 = (allow actor action params now h2).1 := by
  simp only [allow]
  split_ifs with c1 c2 c3 c4 <;> simp_all

theorem allow_stable (actor : Actor) (action : String) (params : Params)
    (now : Nat) (hist : History) :
    (allow actor action params now ((allow actor action params now hist).2)).1
      = (allow actor action params now hist).1 := by
  rcases allow_state actor action params now hist with h | h
  · rw [h]
  · rw [h]
    apply allow_decision_congr
    rw [updateHist_same, filter_idem]

theorem dictGet_set_same {α : Type} (m : List (String × α)) (k : String) (v : α) :
    dictGet (dictSet m k v) k = some v := by
  induction m with
  | nil =>
    simp only [dictSet, dictGet]
    rw [List.find?_cons_of_pos _ (by simp)]
    rfl
  | cons kv rest ih =>
    by_cases h : kv.1 = k
    · rw [dictSet, if_pos h]
      simp only [dictGet]
      rw [List.find?_cons_of_pos _ (by simp)]
      rfl
    · rw [dictSet, if_neg h]
      simp only [dictGet]
      rw [List.find?_cons_of_neg _ (by simpa using h)]
      exact ih

theorem dictGet_set_ne {α : Type} (m : List (String × α)) (k k' : String) (v : α)
    (hk : k' ≠ k) : dictGet (dictSet m k v) k' = dictGet m k' := by
  induction m with
  | nil =>
    simp only [dictSet, dictGet]
    rw [List.find?_cons_of_neg _ (by simpa using Ne.symm hk)]
  | cons kv rest ih =>
    by_cases h : kv.1 = k
    · rw [dictSet, if_pos h]
      simp only [dictGet]
      rw [List.find?_cons_of_neg _ (by simpa using Ne.symm hk),
        List.find?_cons_of_neg _ (by simp [h, Ne.symm hk])]
    · rw [dictSet, if_neg h]
      by_cases h2 : kv.1 = k'
      · simp only [dictGet]
        rw [List.find?_cons_of_pos _ (by simpa using h2),
          List.find?_cons_of_pos _ (by simpa using h2)]
      · simp only [dictGet]
        rw [List.find?_cons_of_neg _ (by simpa using h2),
          List.find?_cons_of_neg _ (by simpa using h2)]
        exact ih

theorem trueCountFor_le_one (j : String) (calls : List VCall) :
    ∀ used, trueCountFor j calls used ≤ 1 := by
  induction calls with
  | nil => intro used; exact Nat.zero_le 1
  | cons c cs ih =>
    intro used
    unfold trueCountFor
    by_cases hc : c.token.payload.jti = some j ∧
        (verify_armoriq_token c.token c.tool c.params c.email c.now used).1
          = PyRet.vbool true
    · rw [if_pos hc]
      have hb := verify_true_fresh c.token c.tool c.params c.email c.now used j hc.1 hc.2
      rw [trueCountFor_zero j cs _ (by rw [hb.2]; exact List.mem_cons_self _ _)]
    · rw [if_neg hc, Nat.zero_add]
      exact ih _

/-! ## Claim theorems -/

/-- C1: for every minted token (a token whose `jti` claim is a string `j`),
at most one call to `verify_armoriq_token` ever returns `True` across any
sequence of presentations against the evolving `USED_TOKENS` set; a first
presentation that decodes (correct key, unexpired, fresh non-empty `jti`)
but whose requested action/params match no bound action still inserts `j`
into the set — the token is burned before the subject and action checks —
and any presentation while `j` is in the set fails, including a later one
with the correctly matching bound action and params. -/
theorem C1_token_single_use (tok : SignedToken) (j : String)
    (tool tool' : String) (p p' : Params) (em em' : Option String)
    (now now' : Nat) (used used2 : List String) (calls : List VCall)
    (hjti : tok.payload.jti = some j) :
    trueCountFor j calls used ≤ 1
    ∧ (tok.key = ARMORIQ_SECRET → now ≤ tok.payload.exp → j ≠ "" → j ∉ used →
        isAuthorized tok.payload.actions tool p = false →
        verify_armoriq_token tok tool p em now used = (PyRet.vbool false, j :: used))
    ∧ (j ∈ used2 →
        (verify_armoriq_token tok tool' p' em' now' used2).1 = PyRet.vbool false) := by
  refine ⟨trueCountFor_le_one j calls used, ?_, ?_⟩
  · intro hkey hexp hne hnotmem hauth
    unfold verify_armoriq_token
    rw [hjti]
    rw [if_neg (by push_neg; exact ⟨hkey, hexp⟩)]
    rw [if_neg (by simp [jtiFalsy, hne, hnotmem])]
    split_ifs with h3 h4
    · rfl
    · exact absurd h4 (by simp [hauth])
    · rfl
  · intro hmem
    rw [verify_replay tok tool' p' em' now' used2 j hjti hmem]

/-- C1 witness: the token bound to `{infra.restart, {service_id: auth}}`,
first presented with `service_id: db` (denied but burned), then presented
with the correctly matching params (fails as a replay). -/
theorem C1_token_single_use_witness :
    trueCountFor "j1" [] [] ≤ 1
    ∧ verify_armoriq_token tokC1 "infra.restart" [("service_id", Value.str "db")]
        none 0 [] = (PyRet.vbool false, ["j1"])
    ∧ (verify_armoriq_token tokC1 "infra.restart" [("service_id", Value.str "auth")]
        none 0 ["j1"]).1 = PyRet.vbool false := by
  have h := C1_token_single_use tokC1 "j1" "infra.restart" "infra.restart"
    [("service_id", Value.str "db")] [("service_id", Value.str "auth")]
    none none 0 0 [] ["j1"] [] rfl
  exact ⟨h.1, h.2.1 rfl (by decide) (by decide) (by decide) (by decide),
    h.2.2 (by decide)⟩

/-- C2 counterexample: `params["agent_id"]` is present (the empty string)
and differs from the authenticated username `"bob"`, yet an admin-role
actor is permitted with "Admin access granted": the identity-binding check
is skipped for falsy `agent_id` values, so the claim does not hold for
every params map in which `agent_id` is present and differing. -/
theorem C2_counterexample :
    (allow (Actor.user (some "bob") ["admin"]) "infra.restart"
        [("agent_id", Value.str "")] 0 emptyHistory).1
      = (true, "Admin access granted")
    ∧ pyGet [("agent_id", Value.str "")] "agent_id" = Value.str ""
    ∧ Value.str "" ≠ Value.str "bob" := by decide

/-- C2 (amended): for every params map in which `params["agent_id"]` is
present and truthy and differs from the non-empty authenticated
username, `allow` returns `(false, identity-mismatch reason)` regardless
of the roles of the actor — the binding check precedes the admin/superadmin
bypass — and the history store is untouched. -/
theorem C2_identity_binding (u : String) (roles : List String) (action : String)
    (params : Params) (now : Nat) (hist : History)
    (hu : u ≠ "") (ha : (pyGet params "agent_id").truthy = true)
    (hne : pyGet params "agent_id" ≠ Value.str u) :
    allow (Actor.user (some u) roles) action params now hist
      = ((false, identityMismatchMsg (pyGet params "agent_id") u), hist) := by
  simp only [allow, Actor.username, Actor.roles, Option.getD_some]
  rw [if_pos ⟨ha, by simp [optStrTruthy, hu], hne⟩]

/-- C2 witness: an admin-role actor authenticated as `"bob"` requesting
with `agent_id = "alice"` is denied with the identity-mismatch reason. -/
theorem C2_identity_binding_witness :
    allow (Actor.user (some "bob") ["admin"]) "infra.restart"
        [("agent_id", Value.str "alice")] 0 emptyHistory
      = ((false, identityMismatchMsg (Value.str "alice") "bob"), emptyHistory) := by
  have h := C2_identity_binding "bob" ["admin"] "infra.restart"
    [("agent_id", Value.str "alice")] 0 emptyHistory
    (by decide) (by decide) (by decide)
  simpa using h

/-- C3: for a junior (non-admin) actor with a clean trailing hour of
history for `(actor, service)`, `allow` for `infra.restart` permits with
"Junior access granted"; after `consume_quota` records the timestamp, a
second `allow` within the 3600-second window denies with the reason
naming the 1-per-hour limit and the service; once more than 3600 seconds
have elapsed, `allow` permits again; and the consumption leaves every
other `(actor, service)` history key unchanged. -/
theorem C3_junior_rate_limit (uo : Option String) (roles : List String)
    (params : Params) (sid : Value) (now now' now'' : Nat) (hist : History)
    (k : Option String × Value)
    (ha : (pyGet params "agent_id").truthy = false)
    (hadmin : "admin" ∉ roles) (hsuper : "superadmin" ∉ roles)
    (hj : "junior" ∈ roles)
    (hp1 : pyGet params "service_id" = sid) (hsid : sid.truthy = true)
    (hclean : ∀ t ∈ hist (uo, sid), ¬ (now - t < 3600))
    (hn1 : now' - now < 3600) (hn2 : 3600 < now'' - now)
    (hk : k ≠ (uo, sid)) :
    (allow (Actor.user uo roles) "infra.restart" params now hist).1
      = (true, "Junior access granted")
    ∧ (allow (Actor.user uo roles) "infra.restart" params now'
        (consume_quota (Actor.user uo roles) "infra.restart" params now
          (allow (Actor.user uo roles) "infra.restart" params now hist).2)).1
      = (false, juniorLimitMsg sid)
    ∧ (allow (Actor.user uo roles) "infra.restart" params now''
        (consume_quota (Actor.user uo roles) "infra.restart" params now
          (allow (Actor.user uo roles) "infra.restart" params now hist).2)).1
      = (true, "Junior access granted")
    ∧ (consume_quota (Actor.user uo roles) "infra.restart" params now
        (allow (Actor.user uo roles) "infra.restart" params now hist).2) k
      = hist k := by
  have hfil : (hist (uo, sid)).filter (fun t => now - t < 3600) = [] :=
    List.filter_eq_nil_iff.mpr (by intro t ht; simpa using hclean t ht)
  have hA := allow_junior uo roles params now hist sid ha hadmin hsuper hj hp1 hsid
  rw [hfil] at hA
  have hA2 : (allow (Actor.user uo roles) "infra.restart" params now hist).2
      = updateHist hist (uo, sid) [] := by rw [hA]
  have hC : consume_quota (Actor.user uo roles) "infra.restart" params now
      ((allow (Actor.user uo roles) "infra.restart" params now hist).2)
      = updateHist (updateHist hist (uo, sid) []) (uo, sid) [now] := by
    rw [hA2, consume_junior uo roles params now _ sid hj hp1 hsid, updateHist_same]
    rfl
  refine ⟨by rw [hA]; rfl, ?_, ?_, ?_⟩
  · rw [hC, allow_junior uo roles params now' _ sid ha hadmin hsuper hj hp1 hsid,
      updateHist_same]
    simp [hn1]
  · rw [hC, allow_junior uo roles params now'' _ sid ha hadmin hsuper hj hp1 hsid,
      updateHist_same]
    simp [Nat.not_lt.mpr (Nat.le_of_lt hn2)]
  · rw [hC, updateHist_ne _ _ _ _ hk, updateHist_ne _ _ _ _ hk]

/-- C3 witness: junior `bob` restarting `auth` at `now = 1000`: first
allow permits, the post-consume allow at the same instant denies with the
limit reason, the allow at `now = 5000` (4000 seconds later) permits
again, and the history key of `alice` is untouched. -/
theorem C3_junior_rate_limit_witness :
    (allow juniorBob "infra.restart" authParams 1000 emptyHistory).1
      = (true, "Junior access granted")
    ∧ (allow juniorBob "infra.restart" authParams 1000
        (consume_quota juniorBob "infra.restart" authParams 1000
          (allow juniorBob "infra.restart" authParams 1000 emptyHistory).2)).1
      = (false, juniorLimitMsg (Value.str "auth"))
    ∧ (allow juniorBob "infra.restart" authParams 5000
        (consume_quota juniorBob "infra.restart" authParams 1000
          (allow juniorBob "infra.restart" authParams 1000 emptyHistory).2)).1
      = (true, "Junior access granted")
    ∧ (consume_quota juniorBob "infra.restart" authParams 1000
        (allow juniorBob "infra.restart" authParams 1000 emptyHistory).2)
        (some "alice", Value.str "auth")
      = emptyHistory (some "alice", Value.str "auth") := by
  exact C3_junior_rate_limit (some "bob") ["junior"] authParams (Value.str "auth")
    1000 1000 5000 emptyHistory (some "alice", Value.str "auth")
    (by decide) (by decide) (by decide) (by decide) (by decide) (by decide)
    (by intro t ht; simp [emptyHistory] at ht) (by decide) (by decide) (by decide)

/-- C4: the mint round trip evaluated at the single-step plan of the
governance test shipped with the repository: mock `capture_plan` discards the plan
and returns the constant id string, the `allowed_actions` extraction of
`get_intent_token` therefore finds no steps (it copies steps only from a
dict with a `"plan"` key, as the last conjunct shows), the minted token
binds no actions, and the first `validate` call for the own step of the plan
is denied instead of permitted. -/
theorem C4_mint_roundtrip_fails :
    capture_plan_mock "test-llm" "restart auth" demoPlan
      = CapturedPlan.planId "mock-plan-id-123"
    ∧ extractAllowedActions (capture_plan_mock "test-llm" "restart auth" demoPlan)
      = []
    ∧ (verify_armoriq_token
        (mintToken (capture_plan_mock "test-llm" "restart auth" demoPlan) 0 "jti-1")
        "infra.restart" authParams (some "admin_agent") 0 []).1
      = PyRet.vbool false
    ∧ extractAllowedActions (CapturedPlan.withSteps demoPlan) = demoPlan := by
  decide

/-- C5: in mock mode `get_intent_token` raises `NameError` on every call,
because `datetime` (and likewise `timedelta`, `uuid` and `jwt`) is
referenced by the branch but bound nowhere in the top-level module
namespace — minting never returns a signed token at runtime. -/
theorem C5_mint_raises_nameerror (c : CapturedPlan) (now : Nat) (nonce : String) :
    get_intent_token_mock c now nonce = Except.error (PyError.nameError "datetime")
    ∧ resolvesName "datetime" = false
    ∧ resolvesName "timedelta" = false
    ∧ resolvesName "uuid" = false
    ∧ resolvesName "jwt" = false := by
  exact ⟨rfl, by decide, by decide, by decide, by decide⟩

/-- C6 counterexample: on a concrete expired token the validator returns
the bare Python boolean `False` (leaving the used-token set untouched),
not the pair `(false, "expired")` the claim describes — no reason string
is returned on the expiry path. -/
theorem C6_counterexample :
    verify_armoriq_token expiredTok "infra.restart" authParams none 200 []
      = (PyRet.vbool false, [])
    ∧ PyRet.vbool false ≠ PyRet.vpair false "expired" := by decide

/-- C6 (amended): for every token whose `exp` lies in the past, validation
always fails — returning the bare boolean `False`, with "expired" only
logged — and never reaches the replay or action-match checks: the result
is independent of the used-token set, subject, action and params, and the
id of the token is not inserted, so an expired presentation does not burn the
token. -/
theorem C6_expired_no_burn (tok : SignedToken) (tool : String) (p : Params)
    (em : Option String) (now : Nat) (used : List String)
    (hexp : tok.payload.exp < now) :
    verify_armoriq_token tok tool p em now used = (PyRet.vbool false, used) := by
  unfold verify_armoriq_token
  rw [if_pos (Or.inr hexp)]

/-- C6 witness: the expired token presented at `now = 200` against a
non-empty used set: denied, set unchanged, id not inserted. -/
theorem C6_expired_no_burn_witness :
    verify_armoriq_token expiredTok "infra.restart" authParams (some "admin_agent")
        200 ["other-jti"]
      = (PyRet.vbool false, ["other-jti"]) :=
  C6_expired_no_burn expiredTok "infra.restart" authParams (some "admin_agent")
    200 ["other-jti"] (by decide)

/-- C7 counterexample: a denial (bad signature) returns the bare Python
boolean `False`, which is none of the claimed `(false, reason)` pairs —
the validator reports no reason string to its caller on any denial path. -/
theorem C7_counterexample :
    (verify_armoriq_token badKeyTok "infra.restart" [] none 0 []).1
      = PyRet.vbool false
    ∧ PyRet.vbool false ≠ PyRet.vpair false "invalid signature"
    ∧ PyRet.vbool false ≠ PyRet.vpair false "expired"
    ∧ PyRet.vbool false ≠ PyRet.vpair false "replay"
    ∧ PyRet.vbool false ≠ PyRet.vpair false "subject mismatch"
    ∧ PyRet.vbool false ≠ PyRet.vpair false "action not authorized by token" := by
  decide

/-- C7 (amended): `verify_armoriq_token` returns a bare boolean on every
path — `True` or `False`, never an `(ok, reason)` pair; the specific
denial reasons exist only as log messages, not in the value returned to
the caller. -/
theorem C7_returns_bare_bool (tok : SignedToken) (tool : String) (p : Params)
    (em : Option String) (now : Nat) (used : List String) :
    ∃ b, (verify_armoriq_token tok tool p em now used).1 = PyRet.vbool b := by
  unfold verify_armoriq_token
  split_ifs <;> exact ⟨_, rfl⟩

/-- C8 counterexample: registering the name `infra.restart` twice
succeeds, and the second registration silently replaces both the handler
and the definition of the first — no `DuplicateAction` failure exists in
the code. -/
theorem C8_counterexample :
    (ToolRegistry.register (ToolRegistry.register ToolRegistry.empty
        "infra.restart" "first" [] (1 : Nat)) "infra.restart" "second" [] 2).get_tool
        "infra.restart"
      = some 2
    ∧ dictGet (ToolRegistry.register (ToolRegistry.register ToolRegistry.empty
        "infra.restart" "first" [] (1 : Nat)) "infra.restart" "second" [] 2).defs
        "infra.restart"
      = some ⟨"infra.restart", "second", []⟩
    ∧ some (2 : Nat) ≠ some 1 := by decide

/-- C8 (amended): `register` adds the handler and `ToolDefinition` under
the given name and never fails; when the name is already registered it
silently overwrites the existing entry, leaving the registration of every
registration unchanged. -/
theorem C8_register_overwrites {α : Type} (reg : ToolRegistry α) (n d : String)
    (p : List ToolParameter) (f : α) (m : String) (hm : m ≠ n) :
    (reg.register n d p f).get_tool n = some f
    ∧ dictGet (reg.register n d p f).defs n = some ⟨n, d, p⟩
    ∧ (reg.register n d p f).get_tool m = reg.get_tool m := by
  exact ⟨dictGet_set_same reg.tools n f,
    dictGet_set_same reg.defs n ⟨n, d, p⟩,
    dictGet_set_ne reg.tools n m f hm⟩

/-- C8 witness: re-registering `t` over an existing registration replaces
it and leaves the unrelated name `other` unregistered. -/
theorem C8_register_overwrites_witness :
    ((ToolRegistry.register ToolRegistry.empty "t" "d1" [] (1 : Nat)).register
        "t" "d2" [] 2).get_tool "t" = some 2
    ∧ dictGet ((ToolRegistry.register ToolRegistry.empty "t" "d1" [] (1 : Nat)).register
        "t" "d2" [] 2).defs "t" = some ⟨"t", "d2", []⟩
    ∧ ((ToolRegistry.register ToolRegistry.empty "t" "d1" [] (1 : Nat)).register
        "t" "d2" [] 2).get_tool "other"
      = (ToolRegistry.register ToolRegistry.empty "t" "d1" [] (1 : Nat)).get_tool
          "other" :=
  C8_register_overwrites (ToolRegistry.register ToolRegistry.empty "t" "d1" [] (1 : Nat))
    "t" "d2" [] 2 "other" (by decide)

/-- C9 counterexample: a call to `allow` does change the observable
contents of the history store: for junior `bob` with one stale timestamp
(recorded at 0, checked at 4000), `allow` writes the pruned (empty) list
back, so the stored entry goes from `[0]` to `[]`. -/
theorem C9_counterexample :
    (allow juniorBob "infra.restart" authParams 4000
        (updateHist emptyHistory (some "bob", Value.str "auth") [0])).2
        (some "bob", Value.str "auth")
      = []
    ∧ (updateHist emptyHistory (some "bob", Value.str "auth") [0])
        (some "bob", Value.str "auth")
      = [0]
    ∧ ([] : List Nat) ≠ [0] := by decide

/-- C9 (amended): `allow` never commits quota — after any call, the
history at every key is either unchanged or merely pruned of timestamps
older than the window (no timestamp is ever added) — and the decision is
idempotent: re-running `allow` with the same arguments on the store the
first call left behind returns the same `(permitted, reason)` pair. -/
theorem C9_allow_no_quota_commit (actor : Actor) (action : String)
    (params : Params) (now : Nat) (hist : History) :
    (∀ k, (allow actor action params now hist).2 k = hist k ∨
      (allow actor action params now hist).2 k
        = (hist k).filter (fun t => now - t < 3600))
    ∧ (allow actor action params now
        ((allow actor action params now hist).2)).1
      = (allow actor action params now hist).1 := by
  refine ⟨?_, allow_stable actor action params now hist⟩
  intro k
  rcases allow_state actor action params now hist with h | h
  · rw [h]; exact Or.inl rfl
  · rw [h]
    by_cases hk : k = (actor.username, pyGet params "service_id")
    · subst hk; rw [updateHist_same]; exact Or.inr rfl
    · rw [updateHist_ne _ _ _ _ hk]; exact Or.inl rfl

/-- C10: when `params["agent_id"]` is falsy (for example the empty
string) or the normalized username of the actor is missing or empty, the
identity-binding comparison is skipped and an admin-role actor is
permitted with "Admin access granted", even though the supplied
`agent_id` matches no authenticated identity. -/
theorem C10_falsy_skips_binding (uo : Option String) (roles : List String)
    (action : String) (params : Params) (now : Nat) (hist : History)
    (hadmin : "admin" ∈ roles)
    (hskip : (pyGet params "agent_id").truthy = false ∨ optStrTruthy uo = false) :
    allow (Actor.user uo roles) action params now hist
      = ((true, "Admin access granted"), hist) := by
  simp only [allow, Actor.username, Actor.roles]
  have hneg : ¬ ((pyGet params "agent_id").truthy = true
      ∧ optStrTruthy uo = true
      ∧ pyGet params "agent_id" ≠ Value.str (uo.getD "")) := by
    rintro ⟨h1, h2, -⟩
    rcases hskip with h | h
    · rw [h] at h1; exact Bool.false_ne_true h1
    · rw [h] at h2; exact Bool.false_ne_true h2
  rw [if_neg hneg, if_pos (Or.inl hadmin)]

/-- C10 witness: both named edge cases — admin `bob` with the present but
empty `agent_id` (which differs from `bob`), and an admin actor dict with
no username at all presenting `agent_id = "alice"` — are permitted with
"Admin access granted". -/
theorem C10_falsy_skips_binding_witness :
    allow (Actor.user (some "bob") ["admin"]) "infra.restart"
        [("agent_id", Value.str "")] 0 emptyHistory
      = ((true, "Admin access granted"), emptyHistory)
    ∧ allow (Actor.user none ["admin"]) "user.create"
        [("agent_id", Value.str "alice")] 0 emptyHistory
      = ((true, "Admin access granted"), emptyHistory) :=
  ⟨C10_falsy_skips_binding (some "bob") ["admin"] "infra.restart"
      [("agent_id", Value.str "")] 0 emptyHistory (by decide) (Or.inl (by decide)),
   C10_falsy_skips_binding none ["admin"] "user.create"
      [("agent_id", Value.str "alice")] 0 emptyHistory (by decide) (Or.inr (by decide))⟩

end ArmorIQ
